import Mathlib

/-!
Verification of `identifyRegistrationError`
(src/packages/browser/src/helpers/identifyRegistrationError.ts).

The classifier inspects a low-level error raised by
`navigator.credentials.create()` together with the original
`CredentialCreationOptions` and either returns a richer `WebAuthnError`
wrapping the original error, or passes the original error through
unchanged.  The TypeScript function is pure apart from reading
`window.location.hostname`, calling the external predicate
`isValidDomain`, and constructing `new AbortController().signal` for an
identity comparison; we model those three ambient values as an explicit
`Env` record.  Abort-signal handles are modelled by their object
identity (a `Nat` tag), so JavaScript reference equality `===` on
signals becomes equality of tags.  The `throw` on the missing
`publicKey` precondition is modelled by `Except.error`.
-/

/-- A low-level DOM error as received from the platform API: a `name`
(one of the DOM exception names) and a `message`. -/
structure LowLevelError where
  name : String
  message : String
deriving DecidableEq, Repr

/-- The error value the classifier constructs: a human-readable message
wrapping the original low-level error as its cause
(src/packages/browser/src/helpers/webAuthnError.ts, consumed as a black
box: only its constructor `(message, cause)` is used here). -/
structure WebAuthnError where
  message : String
  cause : LowLevelError
deriving DecidableEq, Repr

/-- One entry of `publicKey.pubKeyCredParams`. -/
structure PublicKeyCredentialParameters where
  type : String
  alg : Int
deriving DecidableEq, Repr

/-- `publicKey.authenticatorSelection`; both fields are optional in the
DOM type, undefined is `none`. -/
structure AuthenticatorSelectionCriteria where
  requireResidentKey : Option Bool
  userVerification : Option String
deriving DecidableEq, Repr

/-- `publicKey.rp`; `id` is optional in the DOM type. -/
structure PublicKeyCredentialRpEntity where
  id : Option String
deriving DecidableEq, Repr

/-- `publicKey.user`; `id` is a byte sequence (`BufferSource`), modelled
as the list of its bytes so that `byteLength` is `List.length`. -/
structure PublicKeyCredentialUserEntity where
  id : List Nat
deriving DecidableEq, Repr

/-- The fields of `options.publicKey` the classifier consumes. -/
structure PublicKeyCredentialCreationOptions where
  authenticatorSelection : Option AuthenticatorSelectionCriteria
  pubKeyCredParams : List PublicKeyCredentialParameters
  rp : PublicKeyCredentialRpEntity
  user : PublicKeyCredentialUserEntity
deriving DecidableEq, Repr

/-- `CredentialCreationOptions`: `publicKey` is optional (its absence is
the usage error), `signal` is an optional abort-signal handle, modelled
by its object-identity tag. -/
structure CredentialCreationOptions where
  publicKey : Option PublicKeyCredentialCreationOptions
  signal : Option Nat
deriving DecidableEq, Repr

/-- Ambient values the TypeScript function reads from its environment:
`window.location.hostname`, the external domain-syntax predicate
`isValidDomain` (consumed as a black box, only its boolean result is
used), and the identity tag of the freshly constructed
`new AbortController().signal`. -/
structure Env where
  hostname : String
  isValidDomain : String → Bool
  freshSignal : Nat

/-- JavaScript string interpolation of a possibly-undefined string:
`${x}` prints `undefined` when `x` is absent (used for `publicKey.rp.id`
on line 74 of the source). -/
def jsInterpolate : Option String → String
  | some s => s
  | none => "undefined"

/-- The classifier's result: either the exact original error instance
passed through (`passthrough`), or a newly constructed `WebAuthnError`
(`diagnostic`). -/
inductive ClassifyResult where
  | passthrough : ClassifyResult
  | diagnostic : WebAuthnError → ClassifyResult
deriving DecidableEq, Repr

/-- Shallow embedding of `identifyRegistrationError`
(identifyRegistrationError.ts lines 7-93).  `Except.error` models the
`throw Error(...)` on the missing-`publicKey` precondition; every other
path returns `Except.ok`.  Branch structure, conditions, and message
strings follow the source line by line. -/
def identifyRegistrationError (env : Env) (error : LowLevelError)
    (options : CredentialCreationOptions) : Except String ClassifyResult :=
  match options.publicKey with
  | none => Except.error "options was missing required publicKey property"
  | some publicKey =>
    if error.name = "AbortError" then
      if options.signal = some env.freshSignal then
        Except.ok (ClassifyResult.diagnostic
          ⟨"Registration ceremony was sent an abort signal", error⟩)
      else
        Except.ok ClassifyResult.passthrough
    else if error.name = "ConstraintError" then
      if publicKey.authenticatorSelection.bind
          AuthenticatorSelectionCriteria.requireResidentKey = some true then
        Except.ok (ClassifyResult.diagnostic
          ⟨"Discoverable credentials were required but no available authenticator supported it",
           error⟩)
      else if publicKey.authenticatorSelection.bind
          AuthenticatorSelectionCriteria.userVerification = some "required" then
        Except.ok (ClassifyResult.diagnostic
          ⟨"User verification was required but no available authenticator supported it",
           error⟩)
      else
        Except.ok ClassifyResult.passthrough
    else if error.name = "InvalidStateError" then
      Except.ok (ClassifyResult.diagnostic
        ⟨"The authenticator was previously registered", error⟩)
    else if error.name = "NotAllowedError" then
      Except.ok ClassifyResult.passthrough
    else if error.name = "NotSupportedError" then
      let validPubKeyCredParams := publicKey.pubKeyCredParams.filter
        (fun param => param.type = "public-key")
      if validPubKeyCredParams.length = 0 then
        Except.ok (ClassifyResult.diagnostic
          ⟨"No entry in pubKeyCredParams was of type \"public-key\"", error⟩)
      else
        Except.ok (ClassifyResult.diagnostic
          ⟨"No available authenticator supported any of the specified pubKeyCredParams algorithms",
           error⟩)
    else if error.name = "SecurityError" then
      let effectiveDomain := env.hostname
      if !(env.isValidDomain effectiveDomain) then
        Except.ok (ClassifyResult.diagnostic
          ⟨env.hostname ++ " is an invalid domain", error⟩)
      else if publicKey.rp.id ≠ some effectiveDomain then
        Except.ok (ClassifyResult.diagnostic
          ⟨"The RP ID \"" ++ jsInterpolate publicKey.rp.id ++ "\" is invalid for this domain",
           error⟩)
      else
        Except.ok ClassifyResult.passthrough
    else if error.name = "TypeError" then
      if publicKey.user.id.length < 1 ∨ publicKey.user.id.length > 64 then
        Except.ok (ClassifyResult.diagnostic
          ⟨"User ID was not between 1 and 64 characters", error⟩)
      else
        Except.ok ClassifyResult.passthrough
    else if error.name = "UnknownError" then
      Except.ok (ClassifyResult.diagnostic
        ⟨"The authenticator was unable to process the specified options, or could not create a new credential",
         error⟩)
    else
      Except.ok ClassifyResult.passthrough

/-! Concrete sample inputs used by witness theorems. -/

/-- A sample environment: hostname `example.com`, a domain predicate that
accepts everything, fresh-signal identity tag `0`. -/
def sampleEnv : Env :=
  { hostname := "example.com", isValidDomain := fun _ => true, freshSignal := 0 }

/-- A sample `publicKey` substructure. -/
def samplePk : PublicKeyCredentialCreationOptions :=
  { authenticatorSelection := some { requireResidentKey := some true,
                                     userVerification := some "required" }
    pubKeyCredParams := [{ type := "public-key", alg := -7 }]
    rp := { id := some "example.com" }
    user := { id := [1, 2, 3] } }

/-- Sample options with `publicKey` present and no signal. -/
def sampleOptions : CredentialCreationOptions :=
  { publicKey := some samplePk, signal := none }

/-- Sample options with `publicKey` absent. -/
def sampleOptionsNoPk : CredentialCreationOptions :=
  { publicKey := none, signal := none }

/-- A sample low-level error with the given name. -/
def sampleError (n : String) : LowLevelError :=
  { name := n, message := "low-level failure" }

/-- C1: whenever `options.publicKey` is present the classifier returns
normally (an `Except.ok` result, i.e. a `WebAuthnError` diagnostic or the
original error passed through); it never reaches the `throw`. -/
theorem identify_never_raises_with_publicKey (env : Env) (error : LowLevelError)
    (options : CredentialCreationOptions) (pk : PublicKeyCredentialCreationOptions)
    (hpk : options.publicKey = some pk) :
    ∃ r, identifyRegistrationError env error options = Except.ok r := by
  simp only [identifyRegistrationError, hpk]
  repeat' split
  all_goals exact ⟨_, rfl⟩

/-- Witness for C1 at a concrete input with an unrecognized error name. -/
theorem identify_never_raises_with_publicKey_witness :
    ∃ r, identifyRegistrationError sampleEnv (sampleError "SomethingElse") sampleOptions
      = Except.ok r :=
  identify_never_raises_with_publicKey sampleEnv (sampleError "SomethingElse")
    sampleOptions samplePk rfl

/-- C3: whenever `options.publicKey` is absent the classifier raises the
usage error synchronously, for every error name; the raised value is the
error string of the `throw`, not a classification result (in particular
not a `WebAuthnError`). -/
theorem identify_missing_publicKey_raises (env : Env) (error : LowLevelError)
    (options : CredentialCreationOptions)
    (hpk : options.publicKey = none) :
    identifyRegistrationError env error options
      = Except.error "options was missing required publicKey property"
    ∧ ∀ r : ClassifyResult, identifyRegistrationError env error options ≠ Except.ok r := by
  unfold identifyRegistrationError
  rw [hpk]
  exact ⟨rfl, fun r h => by simp at h⟩

/-- Witness for C3 at a concrete input. -/
theorem identify_missing_publicKey_raises_witness :
    identifyRegistrationError sampleEnv (sampleError "TypeError") sampleOptionsNoPk
      = Except.error "options was missing required publicKey property"
    ∧ ∀ r : ClassifyResult,
        identifyRegistrationError sampleEnv (sampleError "TypeError") sampleOptionsNoPk
          ≠ Except.ok r :=
  identify_missing_publicKey_raises sampleEnv (sampleError "TypeError")
    sampleOptionsNoPk rfl

/-- C2: for `AbortError` with `publicKey` present, if `options.signal` is
referentially the signal of the locally constructed, never-used abort
controller (identity tag `env.freshSignal`), the result is a new
`WebAuthnError` with message "Registration ceremony was sent an abort
signal" wrapping the original error; otherwise the original error is
returned unchanged. -/
theorem abortError_classification (env : Env) (error : LowLevelError)
    (options : CredentialCreationOptions) (pk : PublicKeyCredentialCreationOptions)
    (hpk : options.publicKey = some pk)
    (hname : error.name = "AbortError") :
    (options.signal = some env.freshSignal →
      identifyRegistrationError env error options
        = Except.ok (ClassifyResult.diagnostic
            ⟨"Registration ceremony was sent an abort signal", error⟩))
    ∧ (options.signal ≠ some env.freshSignal →
      identifyRegistrationError env error options
        = Except.ok ClassifyResult.passthrough) := by
  constructor <;> intro hsig <;>
    simp [identifyRegistrationError, hpk, hname, hsig]

/-- Witness for C2 at a concrete input whose signal is the fresh one. -/
theorem abortError_classification_witness :
    identifyRegistrationError sampleEnv (sampleError "AbortError")
        { publicKey := some samplePk, signal := some 0 }
      = Except.ok (ClassifyResult.diagnostic
          ⟨"Registration ceremony was sent an abort signal", sampleError "AbortError"⟩) :=
  (abortError_classification sampleEnv (sampleError "AbortError")
    { publicKey := some samplePk, signal := some 0 } samplePk rfl rfl).1 rfl

/-- C4: for `NotAllowedError`, and for every error name outside the
enumerated set, the classifier returns the exact original error object
(pass-through), for all option field values (with `publicKey` present). -/
theorem passthrough_names (env : Env) (error : LowLevelError)
    (options : CredentialCreationOptions) (pk : PublicKeyCredentialCreationOptions)
    (hpk : options.publicKey = some pk)
    (hname : error.name = "NotAllowedError"
      ∨ error.name ∉ ["AbortError", "ConstraintError", "InvalidStateError",
          "NotAllowedError", "NotSupportedError", "SecurityError", "TypeError",
          "UnknownError"]) :
    identifyRegistrationError env error options = Except.ok ClassifyResult.passthrough := by
  rcases hname with hname | hname
  · simp [identifyRegistrationError, hpk, hname]
  · simp only [List.mem_cons, List.not_mem_nil, or_false, not_or] at hname
    obtain ⟨h1, h2, h3, h4, h5, h6, h7, h8⟩ := hname
    simp [identifyRegistrationError, hpk, h1, h2, h3, h4, h5, h6, h7, h8]

/-- Witness for C4 at a concrete input with an unrecognized error name. -/
theorem passthrough_names_witness :
    identifyRegistrationError sampleEnv (sampleError "OperationError") sampleOptions
      = Except.ok ClassifyResult.passthrough :=
  passthrough_names sampleEnv (sampleError "OperationError") sampleOptions samplePk rfl
    (Or.inr (by decide))

/-- C5: for `ConstraintError` with `publicKey` present: if
`authenticatorSelection.requireResidentKey === true` the result is the
discoverable-credentials diagnostic (regardless of `userVerification`,
so the resident-key branch takes precedence); otherwise if
`userVerification === "required"` the result is the user-verification
diagnostic; if neither holds, the original error is passed through. -/
theorem constraintError_classification (env : Env) (error : LowLevelError)
    (options : CredentialCreationOptions) (pk : PublicKeyCredentialCreationOptions)
    (hpk : options.publicKey = some pk)
    (hname : error.name = "ConstraintError") :
    (pk.authenticatorSelection.bind AuthenticatorSelectionCriteria.requireResidentKey
        = some true →
      identifyRegistrationError env error options
        = Except.ok (ClassifyResult.diagnostic
            ⟨"Discoverable credentials were required but no available authenticator supported it",
             error⟩))
    ∧ (pk.authenticatorSelection.bind AuthenticatorSelectionCriteria.requireResidentKey
        ≠ some true →
      pk.authenticatorSelection.bind AuthenticatorSelectionCriteria.userVerification
        = some "required" →
      identifyRegistrationError env error options
        = Except.ok (ClassifyResult.diagnostic
            ⟨"User verification was required but no available authenticator supported it",
             error⟩))
    ∧ (pk.authenticatorSelection.bind AuthenticatorSelectionCriteria.requireResidentKey
        ≠ some true →
      pk.authenticatorSelection.bind AuthenticatorSelectionCriteria.userVerification
        ≠ some "required" →
      identifyRegistrationError env error options
        = Except.ok ClassifyResult.passthrough) := by
  refine ⟨fun hrk => ?_, fun hrk huv => ?_, fun hrk huv => ?_⟩
  · simp [identifyRegistrationError, hpk, hname, hrk]
  · simp [identifyRegistrationError, hpk, hname, hrk, huv]
  · simp [identifyRegistrationError, hpk, hname, hrk, huv]

/-- Witness for C5: both `requireResidentKey = true` and
`userVerification = "required"` hold in `samplePk`, and the
resident-key diagnostic wins. -/
theorem constraintError_classification_witness :
    identifyRegistrationError sampleEnv (sampleError "ConstraintError") sampleOptions
      = Except.ok (ClassifyResult.diagnostic
          ⟨"Discoverable credentials were required but no available authenticator supported it",
           sampleError "ConstraintError"⟩) :=
  (constraintError_classification sampleEnv (sampleError "ConstraintError")
    sampleOptions samplePk rfl rfl).1 rfl

/-- An environment whose domain predicate rejects every string. -/
def sampleEnvBadDomain : Env :=
  { hostname := "bad_host", isValidDomain := fun _ => false, freshSignal := 0 }

/-- C6: for `SecurityError` with `publicKey` present: if the effective
domain fails the domain-validity predicate the result message
interpolates that domain; otherwise if `publicKey.rp.id` differs from
the effective domain the result message interpolates `rp.id`; if the
domain is valid and `rp.id` equals it, the original error is passed
through. -/
theorem securityError_classification (env : Env) (error : LowLevelError)
    (options : CredentialCreationOptions) (pk : PublicKeyCredentialCreationOptions)
    (hpk : options.publicKey = some pk)
    (hname : error.name = "SecurityError") :
    (env.isValidDomain env.hostname = false →
      identifyRegistrationError env error options
        = Except.ok (ClassifyResult.diagnostic
            ⟨env.hostname ++ " is an invalid domain", error⟩))
    ∧ (env.isValidDomain env.hostname = true →
      pk.rp.id ≠ some env.hostname →
      identifyRegistrationError env error options
        = Except.ok (ClassifyResult.diagnostic
            ⟨"The RP ID \"" ++ jsInterpolate pk.rp.id ++ "\" is invalid for this domain",
             error⟩))
    ∧ (env.isValidDomain env.hostname = true →
      pk.rp.id = some env.hostname →
      identifyRegistrationError env error options
        = Except.ok ClassifyResult.passthrough) := by
  refine ⟨fun hdom => ?_, fun hdom hrp => ?_, fun hdom hrp => ?_⟩
  · simp [identifyRegistrationError, hpk, hname, hdom]
  · simp [identifyRegistrationError, hpk, hname, hdom, hrp]
  · simp [identifyRegistrationError, hpk, hname, hdom, hrp]

/-- Witness for C6: the invalid-domain diagnostic at a concrete input. -/
theorem securityError_classification_witness :
    identifyRegistrationError sampleEnvBadDomain (sampleError "SecurityError") sampleOptions
      = Except.ok (ClassifyResult.diagnostic
          ⟨"bad_host is an invalid domain", sampleError "SecurityError"⟩) :=
  (securityError_classification sampleEnvBadDomain (sampleError "SecurityError")
    sampleOptions samplePk rfl rfl).1 rfl

/-- C7: for `NotSupportedError` with `publicKey` present the classifier
never passes through: if filtering `pubKeyCredParams` to entries of type
`public-key` leaves nothing (in particular when `pubKeyCredParams` is
empty) the result message is the no-entry diagnostic, and otherwise it
is the no-authenticator diagnostic. -/
theorem notSupportedError_classification (env : Env) (error : LowLevelError)
    (options : CredentialCreationOptions) (pk : PublicKeyCredentialCreationOptions)
    (hpk : options.publicKey = some pk)
    (hname : error.name = "NotSupportedError") :
    (pk.pubKeyCredParams.filter (fun param => param.type = "public-key") = [] →
      identifyRegistrationError env error options
        = Except.ok (ClassifyResult.diagnostic
            ⟨"No entry in pubKeyCredParams was of type \"public-key\"", error⟩))
    ∧ (pk.pubKeyCredParams.filter (fun param => param.type = "public-key") ≠ [] →
      identifyRegistrationError env error options
        = Except.ok (ClassifyResult.diagnostic
            ⟨"No available authenticator supported any of the specified pubKeyCredParams algorithms",
             error⟩))
    ∧ identifyRegistrationError env error options ≠ Except.ok ClassifyResult.passthrough := by
  refine ⟨fun hfil => ?_, fun hfil => ?_, ?_⟩
  · simp [identifyRegistrationError, hpk, hname, hfil]
  · simp [identifyRegistrationError, hpk, hname, List.length_eq_zero, hfil]
  · by_cases hfil : pk.pubKeyCredParams.filter (fun param => param.type = "public-key") = []
    · simp [identifyRegistrationError, hpk, hname, hfil]
    · simp [identifyRegistrationError, hpk, hname, List.length_eq_zero, hfil]

/-- Witness for C7: empty `pubKeyCredParams` yields the no-entry
diagnostic. -/
theorem notSupportedError_classification_witness :
    identifyRegistrationError sampleEnv (sampleError "NotSupportedError")
        { publicKey := some { samplePk with pubKeyCredParams := [] }, signal := none }
      = Except.ok (ClassifyResult.diagnostic
          ⟨"No entry in pubKeyCredParams was of type \"public-key\"",
           sampleError "NotSupportedError"⟩) :=
  (notSupportedError_classification sampleEnv (sampleError "NotSupportedError")
    { publicKey := some { samplePk with pubKeyCredParams := [] }, signal := none }
    { samplePk with pubKeyCredParams := [] } rfl rfl).1 rfl

/-- C8: for `TypeError` with `publicKey` present: if the byte length of
`publicKey.user.id` is below 1 or above 64 the result is the user-ID
diagnostic; for every length in the inclusive range [1, 64] the original
error is passed through. -/
theorem typeError_classification (env : Env) (error : LowLevelError)
    (options : CredentialCreationOptions) (pk : PublicKeyCredentialCreationOptions)
    (hpk : options.publicKey = some pk)
    (hname : error.name = "TypeError") :
    (pk.user.id.length < 1 ∨ pk.user.id.length > 64 →
      identifyRegistrationError env error options
        = Except.ok (ClassifyResult.diagnostic
            ⟨"User ID was not between 1 and 64 characters", error⟩))
    ∧ (1 ≤ pk.user.id.length → pk.user.id.length ≤ 64 →
      identifyRegistrationError env error options
        = Except.ok ClassifyResult.passthrough) := by
  constructor
  · intro hlen
    simp [identifyRegistrationError, hpk, hname]
    intro hne
    rcases hlen with h | h
    · exact absurd (List.length_eq_zero.mp (by omega)) hne
    · exact h
  · intro h1 h64
    simp only [identifyRegistrationError, hpk, hname]
    simp [Nat.not_lt.mpr h1, Nat.not_lt.mpr h64, Nat.lt_irrefl]

/-- Witness for C8: a zero-length user ID yields the diagnostic. -/
theorem typeError_classification_witness :
    identifyRegistrationError sampleEnv (sampleError "TypeError")
        { publicKey := some { samplePk with user := { id := [] } }, signal := none }
      = Except.ok (ClassifyResult.diagnostic
          ⟨"User ID was not between 1 and 64 characters", sampleError "TypeError"⟩) :=
  (typeError_classification sampleEnv (sampleError "TypeError")
    { publicKey := some { samplePk with user := { id := [] } }, signal := none }
    { samplePk with user := { id := [] } } rfl rfl).1 (Or.inl (by decide))

/-- C9: with `publicKey` present, `InvalidStateError` always yields the
fixed previously-registered diagnostic wrapping the original error, and
`UnknownError` always yields the fixed unable-to-process diagnostic,
regardless of any options field values. -/
theorem unconditional_diagnostics (env : Env) (error : LowLevelError)
    (options : CredentialCreationOptions) (pk : PublicKeyCredentialCreationOptions)
    (hpk : options.publicKey = some pk) :
    (error.name = "InvalidStateError" →
      identifyRegistrationError env error options
        = Except.ok (ClassifyResult.diagnostic
            ⟨"The authenticator was previously registered", error⟩))
    ∧ (error.name = "UnknownError" →
      identifyRegistrationError env error options
        = Except.ok (ClassifyResult.diagnostic
            ⟨"The authenticator was unable to process the specified options, or could not create a new credential",
             error⟩)) := by
  constructor <;> intro hname <;> simp [identifyRegistrationError, hpk, hname]

/-- Witness for C9: `InvalidStateError` at a concrete input. -/
theorem unconditional_diagnostics_witness :
    identifyRegistrationError sampleEnv (sampleError "InvalidStateError") sampleOptions
      = Except.ok (ClassifyResult.diagnostic
          ⟨"The authenticator was previously registered", sampleError "InvalidStateError"⟩) :=
  (unconditional_diagnostics sampleEnv (sampleError "InvalidStateError")
    sampleOptions samplePk rfl).1 rfl

/-- C10: with `publicKey` present the classifier (a pure function of its
explicit inputs, so it mutates nothing) returns exactly one of: the
original error instance passed through, or a newly constructed
`WebAuthnError` whose cause is the original error. -/
theorem classify_passthrough_or_wraps (env : Env) (error : LowLevelError)
    (options : CredentialCreationOptions) (pk : PublicKeyCredentialCreationOptions)
    (hpk : options.publicKey = some pk) :
    ∃ r, identifyRegistrationError env error options = Except.ok r
      ∧ (r = ClassifyResult.passthrough
        ∨ ∃ m, r = ClassifyResult.diagnostic ⟨m, error⟩) := by
  simp only [identifyRegistrationError, hpk]
  repeat' split
  all_goals first
    | exact ⟨_, rfl, Or.inl rfl⟩
    | exact ⟨_, rfl, Or.inr ⟨_, rfl⟩⟩

/-- Witness for C10 at a concrete input. -/
theorem classify_passthrough_or_wraps_witness :
    ∃ r, identifyRegistrationError sampleEnv (sampleError "UnknownError") sampleOptions
        = Except.ok r
      ∧ (r = ClassifyResult.passthrough
        ∨ ∃ m, r = ClassifyResult.diagnostic ⟨m, sampleError "UnknownError"⟩) :=
  classify_passthrough_or_wraps sampleEnv (sampleError "UnknownError")
    sampleOptions samplePk rfl
